import Mathlib

/-
Verification of the room/message protocol of firebase-chat-ready-api
(src/index.js) against its natural-language specification.

The document store (Firestore) is the external collaborator of the spec:
it is modelled as two association lists (the ChatRooms collection and the
UsersChat index collection) with get/set/update/delete-by-key semantics,
plus the change-subscription feed for the message log. Every operation of
src/index.js that the claims mention is translated below; asynchronous
store calls become explicit state passing, and the throw statements of the
source become error values.
-/

namespace FirebaseChat

/-- JavaScript values as far as the validation code of src/index.js inspects
them: a value is undefined, a string, or some other non-string value
(represented here by an integer). The lodash predicates used by the source
are translated just below. -/
inductive JVal where
  | undef : JVal
  | str : String → JVal
  | numv : Int → JVal
deriving DecidableEq

/-- lodash isString. -/
def jIsString : JVal → Bool
  | JVal.str _ => true
  | _ => false

/-- lodash isEmpty on the shapes above: undefined and numbers are empty,
a string is empty exactly when it has no characters. -/
def jIsEmpty : JVal → Bool
  | JVal.undef => true
  | JVal.str s => s.isEmpty
  | JVal.numv _ => true

/-- JavaScript truthiness for the same shapes. -/
def jTruthy : JVal → Bool
  | JVal.undef => false
  | JVal.str s => !s.isEmpty
  | JVal.numv n => n != 0

/-- Projection of a JVal known to be a string. -/
def jStrVal : JVal → String
  | JVal.str s => s
  | _ => ""

/-- Errors thrown by src/index.js. Each constructor stands for one exact
message string of the source; the spec taxonomy maps roomNotFound to
NotFoundError, roomAlreadyRemoved to AlreadyRemovedError, roomPrivate to
PrivateRoomError, and the remaining constructors to ValidationError. -/
inductive ChatErr where
  | roomNotFound
  | roomAlreadyRemoved
  | roomPrivate
  | titleInvalid
  | memberUserIdInvalid
  | memberUsernameInvalid
  | memberPhotoInvalid
  | msgBodyInvalid
  | msgFromEmpty
  | msgFromNotInRoom
deriving DecidableEq

/-- Member object as joinChatRoom receives it: the id field is the chat-room
document key the function targets, userId identifies the joining user. The
paths modelled here read no other field of the JavaScript object. -/
structure JMember where
  id : String
  userId : String
deriving DecidableEq

/-- ChatRooms document as persisted by the source. -/
structure Room where
  title : String
  members : List JMember
  createdAt : Nat
  isRemoved : Bool
  isOpen : Bool
deriving DecidableEq

/-- The two collections the room operations touch: ChatRooms keyed by room id
and UsersChat keyed by user id; a UsersChat record is a key-to-key map in the
source and is modelled as the list of its room keys. -/
structure Store where
  chatRooms : List (String × Room)
  usersChat : List (String × List String)
deriving DecidableEq

/-- get-by-key on a collection. -/
def lookupKey (k : String) : List (String × α) → Option α
  | [] => none
  | (k2, v) :: rest => if k2 == k then some v else lookupKey k rest

/-- set-by-key: overwrite the document at the key, creating it when absent. -/
def setKey (k : String) (v : α) : List (String × α) → List (String × α)
  | [] => [(k, v)]
  | (k2, v2) :: rest => if k2 == k then (k2, v) :: rest else (k2, v2) :: setKey k v rest

/-- delete-by-key: drop the document at the key; deleting an absent key is a
no-op, as it is for the document store. -/
def delKey (k : String) : List (String × α) → List (String × α)
  | [] => []
  | (k2, v2) :: rest => if k2 == k then delKey k rest else (k2, v2) :: delKey k rest

/-- update-by-key: apply a field update to the document at the key; an absent
key leaves the collection unchanged (the store reports the failure through a
separate channel, see chatRoomUpdate). -/
def updateKey (k : String) (f : α → α) : List (String × α) → List (String × α)
  | [] => []
  | (k2, v) :: rest => if k2 == k then (k2, f v) :: rest else (k2, v) :: updateKey k f rest

/-- Translated from addToMemberConversations in src/index.js: get the member
record of the UsersChat collection; when it exists, add the chat key by a
field update, otherwise create the record with the chat key as its only
entry. A field update whose key is already present leaves the key set of the
record unchanged (the value written equals the key). -/
def addToMemberConversations (st : Store) (memberId chatKey : String) : Store :=
  match lookupKey memberId st.usersChat with
  | some keys =>
      { st with usersChat :=
          setKey memberId (if keys.contains chatKey then keys else keys ++ [chatKey]) st.usersChat }
  | none =>
      { st with usersChat := setKey memberId [chatKey] st.usersChat }

/-- Translated from the read half of joinChatRoom in src/index.js: load the
ChatRooms document at key member.id; the function throws roomNotFound when
the document does not exist, roomAlreadyRemoved when isRemoved is set, and
roomPrivate when isOpen is cleared; otherwise the read document flows to the
write half. -/
def joinRead (st : Store) (m : JMember) : Except ChatErr Room :=
  match lookupKey m.id st.chatRooms with
  | none => Except.error ChatErr.roomNotFound
  | some room =>
    if room.isRemoved then Except.error ChatErr.roomAlreadyRemoved
    else if !room.isOpen then Except.error ChatErr.roomPrivate
    else Except.ok room

/-- Translated from the write half of joinChatRoom: push the joining member
onto the members array of the document that was read, issue the plain update
setting the members field to that array and isOpen to false (the update is
not conditioned on the value that was read), then record the membership under
member.userId for the room key member.id. -/
def joinWrite (st : Store) (m : JMember) (readRoom : Room) : Store :=
  let newMembers := readRoom.members ++ [m]
  let st2 : Store :=
    { st with chatRooms :=
        updateKey m.id (fun cur => { cur with members := newMembers, isOpen := false }) st.chatRooms }
  addToMemberConversations st2 m.userId m.id

/-- joinChatRoom run to completion with nothing interleaved between its read
and its write. -/
def joinChatRoom (st : Store) (m : JMember) : Except ChatErr Store :=
  match joinRead st m with
  | Except.error e => Except.error e
  | Except.ok room => Except.ok (joinWrite st m room)

/-- Progress of one joinChatRoom call: not yet started, read done with the
write still pending (the suspension point at the store boundary), or finished
with a failure or a success. -/
inductive ThreadPhase where
  | start
  | readDone : Room → ThreadPhase
  | failed : ChatErr → ThreadPhase
  | succeeded
deriving DecidableEq

/-- One step of one joinChatRoom call against the current store. -/
def threadStep (st : Store) (m : JMember) : ThreadPhase → Store × ThreadPhase
  | ThreadPhase.start =>
    match joinRead st m with
    | Except.error e => (st, ThreadPhase.failed e)
    | Except.ok room => (st, ThreadPhase.readDone room)
  | ThreadPhase.readDone room => (joinWrite st m room, ThreadPhase.succeeded)
  | ThreadPhase.failed e => (st, ThreadPhase.failed e)
  | ThreadPhase.succeeded => (st, ThreadPhase.succeeded)

/-- Interleaved execution step of two joinChatRoom calls: the flag says which
call takes the next step (false for the first, true for the second). -/
def raceStep (m1 m2 : JMember) (cfg : Store × ThreadPhase × ThreadPhase) (who : Bool) :
    Store × ThreadPhase × ThreadPhase :=
  if who then
    let r := threadStep cfg.1 m2 cfg.2.2
    (r.1, cfg.2.1, r.2)
  else
    let r := threadStep cfg.1 m1 cfg.2.1
    (r.1, r.2, cfg.2.2)

/-- Interleaved execution of two joinChatRoom calls under a schedule. -/
def runRace (st : Store) (m1 m2 : JMember) (sched : List Bool) :
    Store × ThreadPhase × ThreadPhase :=
  sched.foldl (raceStep m1 m2) (st, ThreadPhase.start, ThreadPhase.start)

/-- Member object as createChatRoom receives and mutates it; phtot is the
field the source assigns on line 41 (callers pass the field absent). -/
structure RawMember where
  userId : JVal
  username : JVal
  photo : JVal
  phtot : JVal
deriving DecidableEq

/-- Translated from the per-member validation of createChatRoom. -/
def checkMember (m : RawMember) : Option ChatErr :=
  if jIsEmpty m.userId || !jIsString m.userId then some ChatErr.memberUserIdInvalid
  else if jTruthy m.username && !jIsString m.username then some ChatErr.memberUsernameInvalid
  else if jTruthy m.photo && !jIsString m.photo then some ChatErr.memberPhotoInvalid
  else none

/-- Translated from lines 40 and 41 of src/index.js: member.username becomes
the empty string when falsy, and the photo default is assigned to the field
named phtot, while the photo field itself is left untouched. -/
def mutateMember (m : RawMember) : RawMember :=
  { m with
    username := if jTruthy m.username then m.username else JVal.str ""
    phtot := if jTruthy m.photo then m.photo else JVal.str "" }

/-- Member loop of createChatRoom: each member is checked and then mutated, in
order; a throw aborts the whole call. -/
def processMembers : List RawMember → Except ChatErr (List RawMember)
  | [] => Except.ok []
  | m :: rest =>
    match checkMember m with
    | some e => Except.error e
    | none =>
      match processMembers rest with
      | Except.error e => Except.error e
      | Except.ok ms => Except.ok (mutateMember m :: ms)

/-- ChatRooms document as the set call of createChatRoom writes it. -/
structure RoomRecord where
  title : String
  members : List RawMember
  createdAt : Nat
  isRemoved : Bool
  isOpen : Bool
deriving DecidableEq

/-- Store writes issued by createChatRoom: the set of the room document and
one membership index record per member, carrying that member userId and the
room key. -/
inductive CreateEvent where
  | setRoom : String → RoomRecord → CreateEvent
  | recordIndex : JVal → String → CreateEvent
deriving DecidableEq

/-- Result of one createChatRoom call: the store writes it issued in order,
the error it threw if any, and its JavaScript return value. The source builds
the ChatRoom instance inside the then-callback of the set and has no return
statement in createChatRoom itself, so the call always evaluates to
undefined; the returned field is therefore none on every path. -/
structure CreateRun where
  events : List CreateEvent
  thrown : Option ChatErr
  returned : Option RoomRecord
deriving DecidableEq

/-- Translated from createChatRoom in src/index.js: validate the title, run
the member loop, then set the room document with createdAt now, isRemoved
false and isOpen true, and afterwards add the room key to the index record of
each member. -/
def createChatRoom (title : JVal) (members : List RawMember) (roomKey : String)
    (now : Nat) : CreateRun :=
  if jIsEmpty title || !jIsString title then
    { events := [], thrown := some ChatErr.titleInvalid, returned := none }
  else
    match processMembers members with
    | Except.error e => { events := [], thrown := some e, returned := none }
    | Except.ok ms =>
      { events :=
          CreateEvent.setRoom roomKey
            { title := jStrVal title, members := ms, createdAt := now,
              isRemoved := false, isOpen := true }
            :: ms.map (fun m2 => CreateEvent.recordIndex m2.userId roomKey)
        thrown := none
        returned := none }

/-- Shape of the from argument of sendMessage that the claims range over: a
raw userId string or an object carrying a userId field. -/
inductive FromVal where
  | str : String → FromVal
  | obj : String → FromVal
deriving DecidableEq

/-- lodash isEmpty on a from value: a string is empty when it has no
characters; an object carrying a userId key is never empty. -/
def fromValIsEmpty : FromVal → Bool
  | FromVal.str s => s.isEmpty
  | FromVal.obj _ => false

/-- Message document as the set call of the Message constructor writes it. -/
structure MessageRecord where
  body : String
  fromUser : String
  createdAt : Nat
deriving DecidableEq

def defaultJMember : JMember := { id := "", userId := "" }

/-- Translated from the Message constructor of src/index.js, on the
sendMessage path where no fromRef is passed: validate the body, throw when
from is lodash-empty, throw when a string from differs from the userId of
member zero and of member one, throw when an object from carries a userId
differing from both, then persist the body, the sender userId and createdAt
now. The store writes issued are returned together with the thrown error, if
any; the instanceof check of the source can never throw because the negation
binds before the instanceof. -/
def messageCtor (body : JVal) (frm : FromVal) (room : Room) (now : Nat) :
    List MessageRecord × Option ChatErr :=
  if jIsEmpty body || !jIsString body then ([], some ChatErr.msgBodyInvalid)
  else if fromValIsEmpty frm then ([], some ChatErr.msgFromEmpty)
  else
    let u0 := (room.members.getD 0 defaultJMember).userId
    let u1 := (room.members.getD 1 defaultJMember).userId
    match frm with
    | FromVal.str s =>
      if u0 != s && u1 != s then ([], some ChatErr.msgFromNotInRoom)
      else ([{ body := jStrVal body, fromUser := s, createdAt := now }], none)
    | FromVal.obj uid =>
      if u0 != uid && u1 != uid then ([], some ChatErr.msgFromNotInRoom)
      else ([{ body := jStrVal body, fromUser := uid, createdAt := now }], none)

/-- Translated from ChatRoom.sendMessage: it only constructs a new Message in
this room. -/
def sendMessage (room : Room) (body : JVal) (frm : FromVal) (now : Nat) :
    List MessageRecord × Option ChatErr :=
  messageCtor body frm room now

/-- Failure a remove path can hit at the store: a field update addressed at a
document that does not exist is rejected. -/
inductive StoreErr where
  | updateMissingDoc
deriving DecidableEq

/-- update on the ChatRooms document at the key: rejected when the document is
absent, otherwise the field update is applied. -/
def chatRoomUpdate (st : Store) (roomId : String) (f : Room → Room) :
    Store × Option StoreErr :=
  match lookupKey roomId st.chatRooms with
  | none => (st, some StoreErr.updateMissingDoc)
  | some _ => ({ st with chatRooms := updateKey roomId f st.chatRooms }, none)

/-- delete on the ChatRooms document at the key: deleting an absent document
is not an error for the store. -/
def chatRoomDelete (st : Store) (roomId : String) : Store × Option StoreErr :=
  ({ st with chatRooms := delKey roomId st.chatRooms }, none)

/-- Translated from ChatRoom.remove in src/index.js: when softRemove is set,
update the isRemoved flag of the room document; otherwise remove the document
from the store outright (the remove call on the document reference is the
delete-by-key operation of the collaborator contract of the spec). -/
def roomRemove (st : Store) (roomId : String) (softRemove : Bool) :
    Store × Option StoreErr :=
  if softRemove then chatRoomUpdate st roomId (fun r => { r with isRemoved := true })
  else chatRoomDelete st roomId

/-- One iteration of the loop of removeMutualChatRooms for the room id at
hand: the room is touched only when user A also has the id. The outcome of
the store operation for this one room is modelled by the oracle, because the
source issues each update or delete independently inside the loop without
awaiting it, so one rejected operation leaves every other iteration as it
was. -/
def mutualStep (aChats : List String) (softRemove : Bool) (ok : String → Bool)
    (s : Store) (id : String) : Store :=
  if aChats.contains id then
    if ok id then (roomRemove s id softRemove).1 else s
  else s

/-- Translated from ChatRoom.removeMutualChatRooms in src/index.js: read both
UsersChat records, then walk the keys of user B and apply the removal to
every key user A also has. When either record is absent the source crashes on
Object.keys of undefined, modelled as none. -/
def removeMutualChatRooms (st : Store) (userA userB : String) (softRemove : Bool)
    (ok : String → Bool) : Option Store :=
  match lookupKey userA st.usersChat, lookupKey userB st.usersChat with
  | some aChats, some bChats =>
      some (bChats.foldl (mutualStep aChats softRemove ok) st)
  | _, _ => none

/-- Effect of one room removal on the document at its own key: the soft path
maps the document through the isRemoved field update and misses silently when
the document is absent; the hard path deletes whatever is there. -/
def removeEffect (softRemove : Bool) (o : Option Room) : Option Room :=
  if softRemove then o.map (fun r => { r with isRemoved := true }) else none

/-- Fan-out of ChatRoom.getUserChatRooms over the room ids of the user index
record: each id is fetched; a missing document returns from its handler
without touching the accumulated list; a resolved document is pushed, and the
aggregated callback fires exactly when the length of the list reaches the
number of ids. The resolutions are modelled in index order; the number of
callback firings does not depend on that order, because the list grows by one
per resolved document whatever the order. -/
def fanOutEvents (st : Store) (total : Nat) : List String → List Room → List (List Room)
  | [], _ => []
  | id :: rest, acc =>
    match lookupKey id st.chatRooms with
    | none => fanOutEvents st total rest acc
    | some room =>
      let acc2 := acc ++ [room]
      (if acc2.length = total then [acc2] else []) ++ fanOutEvents st total rest acc2

/-- Observable outcome of getUserChatRooms: either the immediate completion
with the no-chat-rooms error when the user has no index record, or the list
of aggregated completion callback invocations, each carrying the rooms
collected up to that point. -/
inductive UserRoomsOutcome where
  | noRecord
  | completions : List (List Room) → UserRoomsOutcome
deriving DecidableEq

/-- Translated from ChatRoom.getUserChatRooms in src/index.js. -/
def getUserChatRooms (st : Store) (userId : String) : UserRoomsOutcome :=
  match lookupKey userId st.usersChat with
  | none => UserRoomsOutcome.noRecord
  | some ids => UserRoomsOutcome.completions (fanOutEvents st ids.length ids [])

/-- Change kinds delivered by the snapshot feed of the store. -/
inductive ChangeType where
  | added
  | modified
  | removed
deriving DecidableEq

/-- One document change of a snapshot batch of the messages collection. -/
structure DocChange where
  ctype : ChangeType
  body : String
  fromUser : String
  createdAt : Nat
deriving DecidableEq

/-- Message view handed to the action callback. -/
structure MessageView where
  body : String
  fromUser : String
  createdAt : Nat
deriving DecidableEq

/-- Translated from the onSnapshot callback installed by
ChatRoom.getMessagesAndListen: for each change of the batch whose type is
added, and for no other change, a Message view is built and the action is
invoked once with it. -/
def snapshotHandler (changes : List DocChange) : List MessageView :=
  changes.filterMap (fun c =>
    if c.ctype = ChangeType.added then
      some { body := c.body, fromUser := c.fromUser, createdAt := c.createdAt }
    else none)

/-- Subscription feed semantics of the store adapter: the feed hands each
batch, in order, to the installed handler while the subscription is active;
cancelling through the unsubscribe handle before batch index n stops delivery
from that batch on, and none means the subscription is never cancelled. -/
def deliveredViews (cancelFrom : Option Nat) (feed : List (List DocChange)) :
    List MessageView :=
  ((feed.take (match cancelFrom with | none => feed.length | some n => n)).map
    snapshotHandler).flatten

/-- JavaScript return value of ChatRoom.getMessagesAndListen: the source
discards the unsubscribe handle that onSnapshot returns and falls off the end
of the function, so the caller receives undefined and holds no point at which
the subscription could be cancelled. -/
def getMessagesAndListenHandle : Option Nat := none

/-- Invocations of the action callback that a call to getMessagesAndListen
produces over a feed: delivery runs with the cancellation point available to
the caller, which is the handle the function returned. -/
def getMessagesAndListenDelivered (feed : List (List DocChange)) : List MessageView :=
  deliveredViews getMessagesAndListenHandle feed

/-- Creator member of the concrete rooms below. -/
def roomU0 : JMember := { id := "", userId := "u0" }

/-- Concrete open room holding only its creator, still accepting one join. -/
def openRoom : Room :=
  { title := "Trip", members := [roomU0], createdAt := 5, isRemoved := false, isOpen := true }

/-- Concrete soft-removed room. -/
def removedRoom : Room :=
  { title := "Trip", members := [roomU0], createdAt := 5, isRemoved := true, isOpen := true }

/-- Concrete closed room. -/
def closedRoom : Room :=
  { title := "Trip", members := [roomU0], createdAt := 5, isRemoved := false, isOpen := false }

/-- Concrete joiner aimed at room key r1. -/
def joinerA : JMember := { id := "r1", userId := "ua" }

/-- Second concrete joiner aimed at the same room key r1. -/
def joinerB : JMember := { id := "r1", userId := "ub" }

/-- Store with nothing in it. -/
def emptyStore : Store := { chatRooms := [], usersChat := [] }

/-- Store holding the open room under key r1. -/
def raceStore : Store := { chatRooms := [("r1", openRoom)], usersChat := [] }

/-- Store holding the soft-removed room under key r1. -/
def removedStore : Store := { chatRooms := [("r1", removedRoom)], usersChat := [] }

/-- Store holding the closed room under key r1. -/
def closedStore : Store := { chatRooms := [("r1", closedRoom)], usersChat := [] }

/-- Joiner whose id field is room9 while its userId is u7. -/
def joinerDecoy : JMember := { id := "room9", userId := "u7" }

/-- Store where a room sits under the userId of the joiner and none under its
id field. -/
def decoyStore : Store := { chatRooms := [("u7", openRoom)], usersChat := [] }

/-- Store where the open room sits under key room9. -/
def room9Store : Store := { chatRooms := [("room9", openRoom)], usersChat := [] }

/-- Member input to createChatRoom carrying every optional field. -/
def memberFull : RawMember :=
  { userId := JVal.str "u1", username := JVal.str "alice", photo := JVal.str "pic1",
    phtot := JVal.undef }

/-- Member input to createChatRoom omitting username and photo. -/
def memberNoPhoto : RawMember :=
  { userId := JVal.str "u2", username := JVal.undef, photo := JVal.undef, phtot := JVal.undef }

/-- Member input to createChatRoom whose userId is the empty string. -/
def badMember : RawMember :=
  { userId := JVal.str "", username := JVal.undef, photo := JVal.undef, phtot := JVal.undef }

/-- Two-party room used to evaluate sendMessage, in the most unfavourable
lifecycle state. -/
def pairRoom : Room :=
  { title := "Trip", members := [{ id := "", userId := "u1" }, { id := "r1", userId := "u2" }],
    createdAt := 5, isRemoved := true, isOpen := false }

/-- Concrete rooms for the listing and mutual-removal evaluations. -/
def roomA : Room :=
  { title := "A", members := [], createdAt := 1, isRemoved := false, isOpen := false }

def roomB : Room :=
  { title := "B", members := [], createdAt := 2, isRemoved := false, isOpen := false }

def roomC : Room :=
  { title := "C", members := [], createdAt := 3, isRemoved := false, isOpen := false }

def roomD : Room :=
  { title := "D", members := [], createdAt := 4, isRemoved := false, isOpen := false }

/-- Store whose user record lists two room ids of which r2 resolves to no
document. -/
def danglingStore : Store :=
  { chatRooms := [("r1", roomA)], usersChat := [("u", ["r1", "r2"])] }

/-- Store whose user record lists two room ids, both resolving. -/
def resolvedStore : Store :=
  { chatRooms := [("r1", roomA), ("r2", roomB)], usersChat := [("u", ["r1", "r2"])] }

/-- Store of the mutual-removal example: user A has rooms r1, r2, r3 and user
B has rooms r2, r3, r4. -/
def mutualStore : Store :=
  { chatRooms := [("r1", roomA), ("r2", roomB), ("r3", roomC), ("r4", roomD)],
    usersChat := [("userA", ["r1", "r2", "r3"]), ("userB", ["r2", "r3", "r4"])] }

/-- Store left by the soft mutual removal on the example store, with every
per-room operation succeeding. -/
def mutualResult : Store :=
  (removeMutualChatRooms mutualStore "userA" "userB" true (fun _ => true)).getD mutualStore

/-- Concrete feed of two snapshot batches mixing added, modified and removed
changes. -/
def feedTwoBatches : List (List DocChange) :=
  [[{ ctype := ChangeType.added, body := "hi", fromUser := "u1", createdAt := 1 },
    { ctype := ChangeType.modified, body := "hi2", fromUser := "u1", createdAt := 1 }],
   [{ ctype := ChangeType.removed, body := "hi", fromUser := "u1", createdAt := 1 },
    { ctype := ChangeType.added, body := "later", fromUser := "u2", createdAt := 7 }]]

theorem lookupKey_setKey_self (k : String) (v : α) :
    ∀ l : List (String × α), lookupKey k (setKey k v l) = some v := by
  intro l
  induction l with
  | nil => simp [setKey, lookupKey]
  | cons hd tl ih =>
    obtain ⟨k2, v2⟩ := hd
    by_cases h : k2 = k
    · simp [setKey, lookupKey, h]
    · simp [setKey, lookupKey, h, ih]

theorem lookupKey_setKey_ne (k k2 : String) (v : α) (hne : k2 ≠ k) :
    ∀ l : List (String × α), lookupKey k2 (setKey k v l) = lookupKey k2 l := by
  intro l
  induction l with
  | nil => simp [setKey, lookupKey, Ne.symm hne]
  | cons hd tl ih =>
    obtain ⟨k3, v3⟩ := hd
    by_cases h : k3 = k
    · subst h
      simp [setKey, lookupKey, hne, Ne.symm hne]
    · by_cases h2 : k3 = k2
      · simp [setKey, lookupKey, h, h2, hne]
      · simp [setKey, lookupKey, h, h2, ih]

theorem lookupKey_updateKey_self (k : String) (f : α → α) :
    ∀ l : List (String × α), lookupKey k (updateKey k f l) = (lookupKey k l).map f := by
  intro l
  induction l with
  | nil => simp [updateKey, lookupKey]
  | cons hd tl ih =>
    obtain ⟨k2, v2⟩ := hd
    by_cases h : k2 = k
    · simp [updateKey, lookupKey, h]
    · simp [updateKey, lookupKey, h, ih]

theorem lookupKey_updateKey_ne (k k2 : String) (f : α → α) (hne : k2 ≠ k) :
    ∀ l : List (String × α), lookupKey k2 (updateKey k f l) = lookupKey k2 l := by
  intro l
  induction l with
  | nil => simp [updateKey, lookupKey]
  | cons hd tl ih =>
    obtain ⟨k3, v3⟩ := hd
    by_cases h : k3 = k
    · subst h
      simp [updateKey, lookupKey, Ne.symm hne]
    · by_cases h2 : k3 = k2
      · simp [updateKey, lookupKey, h, h2, hne]
      · simp [updateKey, lookupKey, h, h2, ih]

theorem lookupKey_delKey_self (k : String) :
    ∀ l : List (String × α), lookupKey k (delKey k l) = none := by
  intro l
  induction l with
  | nil => simp [delKey, lookupKey]
  | cons hd tl ih =>
    obtain ⟨k2, v2⟩ := hd
    by_cases h : k2 = k
    · simp [delKey, h, ih]
    · simp [delKey, lookupKey, h, ih]

theorem lookupKey_delKey_ne (k k2 : String) (hne : k2 ≠ k) :
    ∀ l : List (String × α), lookupKey k2 (delKey k l) = lookupKey k2 l := by
  intro l
  induction l with
  | nil => simp [delKey, lookupKey]
  | cons hd tl ih =>
    obtain ⟨k3, v3⟩ := hd
    by_cases h : k3 = k
    · subst h
      simp [delKey, lookupKey, Ne.symm hne, ih]
    · by_cases h2 : k3 = k2
      · simp [delKey, lookupKey, h, h2, hne]
      · simp [delKey, lookupKey, h, h2, ih]

theorem delKey_of_lookup_none (k : String) :
    ∀ l : List (String × α), lookupKey k l = none → delKey k l = l := by
  intro l
  induction l with
  | nil => simp [delKey]
  | cons hd tl ih =>
    obtain ⟨k2, v2⟩ := hd
    by_cases h : k2 = k
    · simp [lookupKey, h]
    · simp [lookupKey, delKey, h]
      exact ih

theorem updateKey_of_fixed (k : String) (f : α → α) :
    ∀ l : List (String × α), (∀ v, lookupKey k l = some v → f v = v) →
      updateKey k f l = l := by
  intro l
  induction l with
  | nil => simp [updateKey]
  | cons hd tl ih =>
    obtain ⟨k2, v2⟩ := hd
    intro hfix
    by_cases h : k2 = k
    · have : f v2 = v2 := hfix v2 (by simp [lookupKey, h])
      simp [updateKey, h, this]
    · simp [updateKey, h]
      exact ih (fun v hv => hfix v (by simp [lookupKey, h, hv]))

theorem updateKey_eq_setKey (k : String) (f : α → α) :
    ∀ (l : List (String × α)) (v : α), lookupKey k l = some v →
      updateKey k f l = setKey k (f v) l := by
  intro l
  induction l with
  | nil => simp [lookupKey]
  | cons hd tl ih =>
    obtain ⟨k2, v2⟩ := hd
    intro v hv
    by_cases h : k2 = k
    · simp [lookupKey, h] at hv
      simp [updateKey, setKey, h, hv]
    · simp [lookupKey, h] at hv
      simp [updateKey, setKey, h, ih v hv]

theorem addToMemberConversations_chatRooms (st : Store) (u k : String) :
    (addToMemberConversations st u k).chatRooms = st.chatRooms := by
  cases h : lookupKey u st.usersChat with
  | none => simp [addToMemberConversations, h]
  | some keys => simp [addToMemberConversations, h]

/-- C1: two joinChatRoom calls racing on the same initially open room, each
performing its read before either performs its write, both succeed and
neither fails with the private-room error, because the update of the source
is a plain update not conditioned on the isOpen value read in the same
logical step; the final members array is the stale append of the second
writer, so the first join is overwritten and lost even though both calls
reported success and both membership index records were written. Under the
serial schedule the second call does fail with the private-room error. -/
theorem joinChatRoom_race_both_calls_succeed :
    runRace raceStore joinerA joinerB [false, true, false, true] =
      ({ chatRooms := [("r1", { title := "Trip", members := [roomU0, joinerB],
                                createdAt := 5, isRemoved := false, isOpen := false })],
         usersChat := [("ua", ["r1"]), ("ub", ["r1"])] },
       ThreadPhase.succeeded, ThreadPhase.succeeded)
  ∧ (runRace raceStore joinerA joinerB [false, false, true, true]).2.2 =
      ThreadPhase.failed ChatErr.roomPrivate := by
  decide

/-- C2: joinChatRoom fails with the not-found error when the room document is
absent; with the already-removed error when isRemoved is set, the removed
check coming before the open check, so it fires whatever the isOpen value is;
with the private-room error when the room is kept and not open; and on
success the new member is appended to the members array and isOpen becomes
false. -/
theorem joinChatRoom_error_order_and_success (st : Store) (m : JMember) :
    (lookupKey m.id st.chatRooms = none →
        joinChatRoom st m = Except.error ChatErr.roomNotFound)
  ∧ (∀ room, lookupKey m.id st.chatRooms = some room → room.isRemoved = true →
        joinChatRoom st m = Except.error ChatErr.roomAlreadyRemoved)
  ∧ (∀ room, lookupKey m.id st.chatRooms = some room → room.isRemoved = false →
        room.isOpen = false → joinChatRoom st m = Except.error ChatErr.roomPrivate)
  ∧ (∀ room, lookupKey m.id st.chatRooms = some room → room.isRemoved = false →
        room.isOpen = true →
        joinChatRoom st m = Except.ok (joinWrite st m room)
        ∧ lookupKey m.id (joinWrite st m room).chatRooms =
            some { room with members := room.members ++ [m], isOpen := false }) := by
  refine ⟨?_, ?_, ?_, ?_⟩
  · intro h
    simp [joinChatRoom, joinRead, h]
  · intro room h hrem
    simp [joinChatRoom, joinRead, h, hrem]
  · intro room h hrem hopen
    simp [joinChatRoom, joinRead, h, hrem, hopen]
  · intro room h hrem hopen
    constructor
    · simp [joinChatRoom, joinRead, h, hrem, hopen]
    · simp [joinWrite, addToMemberConversations_chatRooms, lookupKey_updateKey_self, h]

/-- Closed instance of joinChatRoom_error_order_and_success on the concrete
stores: missing room, removed room, closed room and open room under key
r1. -/
theorem joinChatRoom_error_order_and_success_witness :
    joinChatRoom emptyStore joinerA = Except.error ChatErr.roomNotFound
  ∧ joinChatRoom removedStore joinerA = Except.error ChatErr.roomAlreadyRemoved
  ∧ joinChatRoom closedStore joinerA = Except.error ChatErr.roomPrivate
  ∧ joinChatRoom raceStore joinerA = Except.ok (joinWrite raceStore joinerA openRoom)
  ∧ lookupKey "r1" (joinWrite raceStore joinerA openRoom).chatRooms =
      some { openRoom with members := openRoom.members ++ [joinerA], isOpen := false } :=
  ⟨(joinChatRoom_error_order_and_success emptyStore joinerA).1 rfl,
   (joinChatRoom_error_order_and_success removedStore joinerA).2.1 removedRoom rfl rfl,
   (joinChatRoom_error_order_and_success closedStore joinerA).2.2.1 closedRoom rfl rfl rfl,
   ((joinChatRoom_error_order_and_success raceStore joinerA).2.2.2 openRoom rfl rfl rfl).1,
   ((joinChatRoom_error_order_and_success raceStore joinerA).2.2.2 openRoom rfl rfl rfl).2⟩

/-- C10: the room document joinChatRoom targets is the one whose key equals
the id field of the member argument: when no room sits under member.id the
call fails with the not-found error even though a room sits under
member.userId; and on success the store reached is the member-id-keyed room
update followed by the membership index record mapping member.userId to room
key member.id, which is the only use of member.userId. -/
theorem joinChatRoom_keyed_by_member_id (st : Store) (m : JMember) :
    (∀ r, lookupKey m.userId st.chatRooms = some r →
        lookupKey m.id st.chatRooms = none →
        joinChatRoom st m = Except.error ChatErr.roomNotFound)
  ∧ (∀ room, lookupKey m.id st.chatRooms = some room → room.isRemoved = false →
        room.isOpen = true →
        joinChatRoom st m =
          Except.ok (addToMemberConversations
            { st with chatRooms :=
                (setKey m.id { room with members := room.members ++ [m], isOpen := false }
                  st.chatRooms) }
            m.userId m.id)) := by
  constructor
  · intro r hr h
    simp [joinChatRoom, joinRead, h]
  · intro room h hrem hopen
    have hupd := updateKey_eq_setKey m.id
      (fun cur => { cur with members := room.members ++ [m], isOpen := false })
      st.chatRooms room h
    simp [joinChatRoom, joinRead, joinWrite, h, hrem, hopen, hupd]

/-- Closed instance of joinChatRoom_keyed_by_member_id: when the store holds a
room under u7, the userId of the joiner, and none under room9, its id, the
join reports the not-found error; when the room sits under room9 the join
succeeds there and records u7 to room9 in the index. -/
theorem joinChatRoom_keyed_by_member_id_witness :
    joinChatRoom decoyStore joinerDecoy = Except.error ChatErr.roomNotFound
  ∧ joinChatRoom room9Store joinerDecoy =
      Except.ok (addToMemberConversations
        { room9Store with chatRooms :=
            (setKey "room9"
              { openRoom with members := openRoom.members ++ [joinerDecoy], isOpen := false }
              room9Store.chatRooms) }
        "u7" "room9") :=
  ⟨(joinChatRoom_keyed_by_member_id decoyStore joinerDecoy).1 openRoom rfl rfl,
   (joinChatRoom_keyed_by_member_id room9Store joinerDecoy).2 openRoom rfl rfl rfl⟩

/-- C3 failing evaluation: createChatRoom on a valid title and two well formed
members, the second omitting username and photo, sets the room document with
createdAt now, isOpen true and isRemoved false and records both index
entries; but the stored second member keeps photo undefined and instead gains
a field named phtot holding the empty-string default, because line 41 of the
source assigns member.phtot rather than member.photo; and the call evaluates
to undefined rather than the created room, because the ChatRoom instance is
built inside the then-callback and createChatRoom has no return statement. -/
theorem createChatRoom_photo_default_misassigned :
    createChatRoom (JVal.str "Trip") [memberFull, memberNoPhoto] "room1" 100 =
      { events :=
          [CreateEvent.setRoom "room1"
            { title := "Trip",
              members :=
                [{ userId := JVal.str "u1", username := JVal.str "alice",
                   photo := JVal.str "pic1", phtot := JVal.str "pic1" },
                 { userId := JVal.str "u2", username := JVal.str "",
                   photo := JVal.undef, phtot := JVal.str "" }],
              createdAt := 100, isRemoved := false, isOpen := true },
           CreateEvent.recordIndex (JVal.str "u1") "room1",
           CreateEvent.recordIndex (JVal.str "u2") "room1"],
        thrown := none,
        returned := none } := by
  decide

/-- C4 failing evaluation: the user record lists r1 and r2 and r2 resolves to
no document; the fetch handler of r2 returns early and the aggregated
callback, guarded by the collected list length reaching the number of ids,
never fires, so the caller is never completed; when both ids resolve the
callback fires exactly once, with both rooms. -/
theorem getUserChatRooms_dangling_id_loses_completion :
    getUserChatRooms danglingStore "u" = UserRoomsOutcome.completions []
  ∧ getUserChatRooms resolvedStore "u" = UserRoomsOutcome.completions [[roomA, roomB]] := by
  decide

/-- C9 evaluation: over the two-batch feed the action fires exactly once per
added change and never for the modified or the removed change; but the
unsubscribe handle available to the caller is none, because
getMessagesAndListen discards the value onSnapshot returns, so the delivery
the caller observes spans the whole feed: had the handle been returned and
used after the first batch, the added entry of the second batch would not
have been delivered. -/
theorem getMessagesAndListen_cannot_cancel :
    getMessagesAndListenDelivered feedTwoBatches =
      [{ body := "hi", fromUser := "u1", createdAt := 1 },
       { body := "later", fromUser := "u2", createdAt := 7 }]
  ∧ getMessagesAndListenHandle = none
  ∧ deliveredViews (some 1) feedTwoBatches =
      [{ body := "hi", fromUser := "u1", createdAt := 1 }] := by
  decide

/-- C5: sendMessage on a two-member room, with a valid body and a from value
that is either a nonempty raw userId string or an object carrying a userId
field, matching neither of the two member userIds, fails with the in-room
validation error, whatever the isOpen and isRemoved state of the room, and
persists no entry. -/
theorem sendMessage_rejects_foreign_sender (room : Room) (a b : JMember) (bs : String)
    (frm : FromVal) (now : Nat)
    (hmem : room.members = [a, b])
    (hbody : bs ≠ "")
    (hstr : ∀ s, frm = FromVal.str s → s ≠ "" ∧ s ≠ a.userId ∧ s ≠ b.userId)
    (hobj : ∀ u, frm = FromVal.obj u → u ≠ a.userId ∧ u ≠ b.userId) :
    sendMessage room (JVal.str bs) frm now = ([], some ChatErr.msgFromNotInRoom) := by
  have hb : bs.isEmpty = false := by
    cases hbe : bs.isEmpty with
    | false => rfl
    | true => exact absurd ((String.isEmpty_iff bs).mp hbe) hbody
  cases frm with
  | str s =>
    obtain ⟨h1, h2, h3⟩ := hstr s rfl
    have hs : s.isEmpty = false := by
      cases hse : s.isEmpty with
      | false => rfl
      | true => exact absurd ((String.isEmpty_iff s).mp hse) h1
    simp [sendMessage, messageCtor, jIsEmpty, jIsString, fromValIsEmpty, hb, hs, hmem,
      bne_iff_ne, Ne.symm h2, Ne.symm h3]
  | obj u =>
    obtain ⟨h2, h3⟩ := hobj u rfl
    simp [sendMessage, messageCtor, jIsEmpty, jIsString, fromValIsEmpty, hb, hmem,
      bne_iff_ne, Ne.symm h2, Ne.symm h3]

/-- Closed instance of sendMessage_rejects_foreign_sender on the concrete
two-member room, in removed-and-closed state, with sender u3 given both as a
raw string and as an object. -/
theorem sendMessage_rejects_foreign_sender_witness :
    sendMessage pairRoom (JVal.str "yo") (FromVal.str "u3") 9 =
      ([], some ChatErr.msgFromNotInRoom)
  ∧ sendMessage pairRoom (JVal.str "yo") (FromVal.obj "u3") 9 =
      ([], some ChatErr.msgFromNotInRoom) := by
  refine ⟨sendMessage_rejects_foreign_sender pairRoom { id := "", userId := "u1" }
      { id := "r1", userId := "u2" } "yo" (FromVal.str "u3") 9 rfl (by decide) ?_ ?_,
    sendMessage_rejects_foreign_sender pairRoom { id := "", userId := "u1" }
      { id := "r1", userId := "u2" } "yo" (FromVal.obj "u3") 9 rfl (by decide) ?_ ?_⟩
  · intro s h
    cases h
    exact ⟨by decide, by decide, by decide⟩
  · intro u h
    cases h
  · intro s h
    cases h
  · intro u h
    cases h
    exact ⟨by decide, by decide⟩

theorem processMembers_error_of_mem (m : RawMember) (post : List RawMember) (e : ChatErr)
    (hm : checkMember m = some e) :
    ∀ pre : List RawMember, (∀ m2 ∈ pre, checkMember m2 = none) →
      processMembers (pre ++ m :: post) = Except.error e := by
  intro pre
  induction pre with
  | nil =>
    intro _
    simp [processMembers, hm]
  | cons hd tl ih =>
    intro hpre
    have hhd : checkMember hd = none := hpre hd (by simp)
    have htl := ih (fun m2 hm2 => hpre m2 (by simp [hm2]))
    simp [processMembers, hhd, htl]

/-- C6: every listed validation failure is raised before any store write: over
all inputs, createChatRoom issues no event or throws nothing, and likewise
the Message constructor; an empty or non-string title throws the title error
with no events; a member whose userId is not a nonempty string, sitting
behind members that pass their checks, throws the userId error with no
events; an empty or non-string message body throws the body error with no
entry persisted. -/
theorem validation_before_any_store_write :
    (∀ title members roomKey now,
        (createChatRoom title members roomKey now).events = []
        ∨ (createChatRoom title members roomKey now).thrown = none)
  ∧ (∀ title members roomKey now, jIsString title = false ∨ title = JVal.str "" →
        createChatRoom title members roomKey now =
          { events := [], thrown := some ChatErr.titleInvalid, returned := none })
  ∧ (∀ (t : String) pre m post roomKey now, t ≠ "" →
        (jIsEmpty m.userId || !jIsString m.userId) = true →
        (∀ m2 ∈ pre, checkMember m2 = none) →
        createChatRoom (JVal.str t) (pre ++ m :: post) roomKey now =
          { events := [], thrown := some ChatErr.memberUserIdInvalid, returned := none })
  ∧ (∀ body frm room now,
        (messageCtor body frm room now).1 = []
        ∨ (messageCtor body frm room now).2 = none)
  ∧ (∀ body frm room now, jIsString body = false ∨ body = JVal.str "" →
        messageCtor body frm room now = ([], some ChatErr.msgBodyInvalid)) := by
  refine ⟨?_, ?_, ?_, ?_, ?_⟩
  · intro title members roomKey now
    by_cases h1 : (jIsEmpty title || !jIsString title) = true
    · simp [createChatRoom, h1]
    · rw [Bool.not_eq_true] at h1
      cases hp : processMembers members with
      | error e => simp [createChatRoom, h1, hp]
      | ok ms => simp [createChatRoom, h1, hp]
  · intro title members roomKey now h
    have hcond : (jIsEmpty title || !jIsString title) = true := by
      rcases h with h | h
      · simp [h]
      · subst h
        decide
    simp [createChatRoom, hcond]
  · intro t pre m post roomKey now ht hbad hpre
    have hm : checkMember m = some ChatErr.memberUserIdInvalid := by
      simp [checkMember, hbad]
    have htl := processMembers_error_of_mem m post ChatErr.memberUserIdInvalid hm pre hpre
    have hte : t.isEmpty = false := by
      cases hse : t.isEmpty with
      | false => rfl
      | true => exact absurd ((String.isEmpty_iff t).mp hse) ht
    simp [createChatRoom, jIsEmpty, jIsString, hte, htl]
  · intro body frm room now
    simp only [messageCtor]
    split
    · exact Or.inl rfl
    · split
      · exact Or.inl rfl
      · split
        · split
          · exact Or.inl rfl
          · exact Or.inr rfl
        · split
          · exact Or.inl rfl
          · exact Or.inr rfl
  · intro body frm room now h
    have hcond : (jIsEmpty body || !jIsString body) = true := by
      rcases h with h | h
      · simp [h]
      · subst h
        decide
    simp [messageCtor, hcond]

/-- Closed instance of validation_before_any_store_write: a numeric title, an
empty title, a member whose userId is the empty string behind one valid
member, an empty body and an undefined body all throw with no store write. -/
theorem validation_before_any_store_write_witness :
    createChatRoom (JVal.numv 5) [memberFull] "k" 0 =
      { events := [], thrown := some ChatErr.titleInvalid, returned := none }
  ∧ createChatRoom (JVal.str "") [memberFull] "k" 0 =
      { events := [], thrown := some ChatErr.titleInvalid, returned := none }
  ∧ createChatRoom (JVal.str "Trip") [memberFull, badMember] "k" 0 =
      { events := [], thrown := some ChatErr.memberUserIdInvalid, returned := none }
  ∧ messageCtor (JVal.str "") (FromVal.str "u1") pairRoom 0 =
      ([], some ChatErr.msgBodyInvalid)
  ∧ messageCtor JVal.undef (FromVal.str "u1") pairRoom 0 =
      ([], some ChatErr.msgBodyInvalid) := by
  refine ⟨validation_before_any_store_write.2.1 (JVal.numv 5) [memberFull] "k" 0 (Or.inl rfl),
    validation_before_any_store_write.2.1 (JVal.str "") [memberFull] "k" 0 (Or.inr rfl),
    validation_before_any_store_write.2.2.1 "Trip" [memberFull] badMember [] "k" 0
      (by decide) (by decide) ?_,
    validation_before_any_store_write.2.2.2.2 (JVal.str "") (FromVal.str "u1") pairRoom 0
      (Or.inr rfl),
    validation_before_any_store_write.2.2.2.2 JVal.undef (FromVal.str "u1") pairRoom 0
      (Or.inl rfl)⟩
  intro m2 hm2
  simp at hm2
  subst hm2
  decide

theorem chatRoomUpdate_of_some (st : Store) (k : String) (f : Room → Room) (r : Room)
    (h : lookupKey k st.chatRooms = some r) :
    chatRoomUpdate st k f = ({ st with chatRooms := updateKey k f st.chatRooms }, none) := by
  simp [chatRoomUpdate, h]

/-- C7: on an existing room document, soft remove performs exactly the
isRemoved field update, leaving every other field of the document and every
other document untouched, with no error; a second soft remove reports no
error and leaves the store as it was, the flag still set; hard remove deletes
the document outright; and hard remove aimed at a key holding no document is
not an error and leaves the store unchanged. -/
theorem roomRemove_soft_idempotent_hard_total (st : Store) (roomId : String) (room : Room)
    (h : lookupKey roomId st.chatRooms = some room) :
    roomRemove st roomId true =
      ({ st with chatRooms := setKey roomId { room with isRemoved := true } st.chatRooms },
        none)
  ∧ roomRemove (roomRemove st roomId true).1 roomId true = ((roomRemove st roomId true).1, none)
  ∧ lookupKey roomId (roomRemove (roomRemove st roomId true).1 roomId true).1.chatRooms =
      some { room with isRemoved := true }
  ∧ (∀ k, k ≠ roomId →
        lookupKey k (roomRemove st roomId true).1.chatRooms = lookupKey k st.chatRooms)
  ∧ (roomRemove st roomId true).1.usersChat = st.usersChat
  ∧ roomRemove st roomId false = ({ st with chatRooms := delKey roomId st.chatRooms }, none)
  ∧ lookupKey roomId (roomRemove st roomId false).1.chatRooms = none
  ∧ (∀ st2 : Store, lookupKey roomId st2.chatRooms = none →
        roomRemove st2 roomId false = (st2, none)) := by
  have hset := updateKey_eq_setKey roomId (fun r => { r with isRemoved := true })
    st.chatRooms room h
  have hc1 : roomRemove st roomId true =
      ({ st with chatRooms := setKey roomId { room with isRemoved := true } st.chatRooms },
        none) := by
    simp [roomRemove, chatRoomUpdate, h, hset]
  have hl1 : lookupKey roomId (roomRemove st roomId true).1.chatRooms =
      some { room with isRemoved := true } := by
    rw [hc1]
    exact lookupKey_setKey_self roomId _ st.chatRooms
  have hidem : roomRemove (roomRemove st roomId true).1 roomId true =
      ((roomRemove st roomId true).1, none) := by
    have hfix := updateKey_of_fixed roomId (fun r => { r with isRemoved := true })
      (roomRemove st roomId true).1.chatRooms
      (fun v hv => by
        rw [hl1] at hv
        cases hv
        rfl)
    calc roomRemove (roomRemove st roomId true).1 roomId true
        = chatRoomUpdate (roomRemove st roomId true).1 roomId
            (fun r => { r with isRemoved := true }) := rfl
      _ = ({ (roomRemove st roomId true).1 with
              chatRooms := (updateKey roomId (fun r => { r with isRemoved := true })
                (roomRemove st roomId true).1.chatRooms) }, none) :=
        chatRoomUpdate_of_some (roomRemove st roomId true).1 roomId
          (fun r => { r with isRemoved := true }) { room with isRemoved := true } hl1
      _ = ((roomRemove st roomId true).1, none) := by rw [hfix]
  refine ⟨hc1, hidem, ?_, ?_, ?_, ?_, ?_, ?_⟩
  · rw [hidem]
    exact hl1
  · intro k hk
    rw [hc1]
    exact lookupKey_setKey_ne roomId k _ hk st.chatRooms
  · rw [hc1]
  · simp [roomRemove, chatRoomDelete]
  · simp [roomRemove, chatRoomDelete]
    exact lookupKey_delKey_self roomId st.chatRooms
  · intro st2 h2
    simp [roomRemove, chatRoomDelete, delKey_of_lookup_none roomId st2.chatRooms h2]

/-- Closed instance of roomRemove_soft_idempotent_hard_total on the store
holding the open room under key r1, together with the hard removal of a key
holding no document on the empty store. -/
theorem roomRemove_soft_idempotent_hard_total_witness :
    roomRemove raceStore "r1" true =
      ({ raceStore with chatRooms :=
          (setKey "r1" { openRoom with isRemoved := true } raceStore.chatRooms) }, none)
  ∧ lookupKey "r1" (roomRemove (roomRemove raceStore "r1" true).1 "r1" true).1.chatRooms =
      some { openRoom with isRemoved := true }
  ∧ roomRemove emptyStore "r1" false = (emptyStore, none) :=
  ⟨(roomRemove_soft_idempotent_hard_total raceStore "r1" openRoom rfl).1,
   (roomRemove_soft_idempotent_hard_total raceStore "r1" openRoom rfl).2.2.1,
   (roomRemove_soft_idempotent_hard_total raceStore "r1" openRoom rfl).2.2.2.2.2.2.2
     emptyStore rfl⟩

theorem removeEffect_idem (softRemove : Bool) (o : Option Room) :
    removeEffect softRemove (removeEffect softRemove o) = removeEffect softRemove o := by
  cases softRemove <;> cases o <;> simp [removeEffect]

theorem roomRemove_usersChat (s : Store) (id : String) (softRemove : Bool) :
    (roomRemove s id softRemove).1.usersChat = s.usersChat := by
  cases softRemove with
  | false => simp [roomRemove, chatRoomDelete]
  | true =>
    cases h : lookupKey id s.chatRooms with
    | none => simp [roomRemove, chatRoomUpdate, h]
    | some r => simp [roomRemove, chatRoomUpdate, h]

theorem mutualStep_usersChat (aChats : List String) (softRemove : Bool) (ok : String → Bool)
    (s : Store) (id : String) :
    (mutualStep aChats softRemove ok s id).usersChat = s.usersChat := by
  unfold mutualStep
  split
  · split
    · exact roomRemove_usersChat s id softRemove
    · rfl
  · rfl

theorem roomRemove_lookup_ne (s : Store) (id id2 : String) (softRemove : Bool)
    (hne : id ≠ id2) :
    lookupKey id (roomRemove s id2 softRemove).1.chatRooms = lookupKey id s.chatRooms := by
  cases softRemove with
  | false => simp [roomRemove, chatRoomDelete, lookupKey_delKey_ne id2 id hne]
  | true =>
    cases h : lookupKey id2 s.chatRooms with
    | none => simp [roomRemove, chatRoomUpdate, h]
    | some r => simp [roomRemove, chatRoomUpdate, h, lookupKey_updateKey_ne id2 id _ hne]

theorem mutualStep_lookup_ne (aChats : List String) (softRemove : Bool) (ok : String → Bool)
    (s : Store) (id id2 : String) (hne : id ≠ id2) :
    lookupKey id (mutualStep aChats softRemove ok s id2).chatRooms =
      lookupKey id s.chatRooms := by
  unfold mutualStep
  split
  · split
    · exact roomRemove_lookup_ne s id id2 softRemove hne
    · rfl
  · rfl

theorem roomRemove_lookup_self (s : Store) (id : String) (softRemove : Bool) :
    lookupKey id (roomRemove s id softRemove).1.chatRooms =
      removeEffect softRemove (lookupKey id s.chatRooms) := by
  cases softRemove with
  | false => simp [roomRemove, chatRoomDelete, removeEffect, lookupKey_delKey_self]
  | true =>
    cases h : lookupKey id s.chatRooms with
    | none => simp [roomRemove, chatRoomUpdate, h, removeEffect]
    | some r =>
      simp [roomRemove, chatRoomUpdate, h, removeEffect, lookupKey_updateKey_self]

theorem mutualStep_lookup_self (aChats : List String) (softRemove : Bool) (ok : String → Bool)
    (s : Store) (id : String) :
    lookupKey id (mutualStep aChats softRemove ok s id).chatRooms =
      if aChats.contains id && ok id then removeEffect softRemove (lookupKey id s.chatRooms)
      else lookupKey id s.chatRooms := by
  by_cases h1 : id ∈ aChats
  · by_cases h2 : ok id = true
    · simp [mutualStep, h1, h2, roomRemove_lookup_self]
    · simp [mutualStep, h1, h2]
  · simp [mutualStep, h1]

theorem foldl_mutualStep_usersChat (aChats : List String) (softRemove : Bool)
    (ok : String → Bool) :
    ∀ (ids : List String) (s : Store),
      (ids.foldl (mutualStep aChats softRemove ok) s).usersChat = s.usersChat := by
  intro ids
  induction ids with
  | nil =>
    intro s
    rfl
  | cons hd tl ih =>
    intro s
    rw [List.foldl_cons, ih, mutualStep_usersChat]

theorem foldl_mutualStep_lookup (aChats : List String) (softRemove : Bool)
    (ok : String → Bool) :
    ∀ (ids : List String) (s : Store) (id : String),
      lookupKey id (ids.foldl (mutualStep aChats softRemove ok) s).chatRooms =
        if ids.contains id && (aChats.contains id && ok id)
        then removeEffect softRemove (lookupKey id s.chatRooms)
        else lookupKey id s.chatRooms := by
  intro ids
  induction ids with
  | nil =>
    intro s id
    simp
  | cons hd tl ih =>
    intro s id
    rw [List.foldl_cons, ih]
    by_cases hid : hd = id
    · subst hid
      rw [mutualStep_lookup_self]
      by_cases hA1 : hd ∈ aChats
      · by_cases hA2 : ok hd = true
        · by_cases htl : hd ∈ tl
          · simp [hA1, hA2, htl, removeEffect_idem]
          · simp [hA1, hA2, htl]
        · simp [hA1, hA2]
      · simp [hA1]
    · rw [mutualStep_lookup_ne aChats softRemove ok s id hd (Ne.symm hid)]
      simp [List.contains_cons, hid, Ne.symm hid]

/-- C8: when both user index records exist, the mutual removal applies the
removal effect, for every room id, exactly when the id lies in both room-id
lists and the store operation of that one room succeeded, and leaves every
other room document unchanged whatever happened to the other rooms; the user
index records are untouched. -/
theorem removeMutualChatRooms_intersection_only (st : Store) (userA userB : String)
    (softRemove : Bool) (ok : String → Bool) (aChats bChats : List String) (st2 : Store)
    (ha : lookupKey userA st.usersChat = some aChats)
    (hb : lookupKey userB st.usersChat = some bChats)
    (hrun : removeMutualChatRooms st userA userB softRemove ok = some st2) :
    (∀ id, lookupKey id st2.chatRooms =
        if bChats.contains id && (aChats.contains id && ok id)
        then removeEffect softRemove (lookupKey id st.chatRooms)
        else lookupKey id st.chatRooms)
  ∧ st2.usersChat = st.usersChat := by
  have hst2 : bChats.foldl (mutualStep aChats softRemove ok) st = st2 := by
    simp [removeMutualChatRooms, ha, hb] at hrun
    exact hrun
  subst hst2
  exact ⟨fun id => foldl_mutualStep_lookup aChats softRemove ok bChats st id,
         foldl_mutualStep_usersChat aChats softRemove ok bChats st⟩

/-- Closed instance of removeMutualChatRooms_intersection_only on the example
store: user A has rooms r1, r2, r3 and user B has rooms r2, r3, r4; after the
soft mutual removal only r2 and r3 carry the removed flag, r1 and r4 are
untouched, and the index records are unchanged. -/
theorem removeMutualChatRooms_intersection_only_witness :
    lookupKey "r1" mutualResult.chatRooms = some roomA
  ∧ lookupKey "r2" mutualResult.chatRooms = some { roomB with isRemoved := true }
  ∧ lookupKey "r3" mutualResult.chatRooms = some { roomC with isRemoved := true }
  ∧ lookupKey "r4" mutualResult.chatRooms = some roomD
  ∧ mutualResult.usersChat = mutualStore.usersChat := by
  have h := removeMutualChatRooms_intersection_only mutualStore "userA" "userB" true
    (fun _ => true) ["r1", "r2", "r3"] ["r2", "r3", "r4"] mutualResult rfl rfl rfl
  refine ⟨?_, ?_, ?_, ?_, h.2⟩
  · rw [h.1 "r1"]
    decide
  · rw [h.1 "r2"]
    decide
  · rw [h.1 "r3"]
    decide
  · rw [h.1 "r4"]
    decide

end FirebaseChat
